import Mathlib

/-!
Shallow embedding of the environment-monitoring back end
(`src/back-end/src`), covering:

* `calculate-current-environment-status.usecase.ts` — the 5-minute
  aggregation engine (`CalculateCurrentEnviromentStatusUseCase.execute`,
  the `statusValues` and `status` lookup tables);
* `usecase.mediator.ts` — the command dispatcher
  (`IUseCaseMediator.notify`, `eventsMap` registration);
* `infra/firebase.ts` — `getDataBiggerThan`, `getLast`;
* `infra/environment-status.repository.ts` — `list`,
  `getStatusBiggerThan`, `getLast`;
* the `CalculateAverageTask` scheduler (`@Interval(10000) handleCron`).

JavaScript numbers are modelled by `JsNum`: a finite double is an exact
rational, plus the special values `NaN`, `Infinity` and `-Infinity` that
JS arithmetic can produce (`0/0 = NaN`, `x/0 = ±Infinity`, adding
`undefined` yields `NaN`).  Record lookups that may miss return
`Option`, matching JS `undefined`.
-/

namespace EnvMonitor

/-- A JavaScript number: a finite double (modelled as an exact rational)
or one of the IEEE special values produced by JS arithmetic. -/
inductive JsNum where
  | num : ℚ → JsNum
  | nan : JsNum
  | posInf : JsNum
  | negInf : JsNum
deriving DecidableEq, Repr

/-- JS `+` on numbers: finite values add exactly; `NaN` is absorbing;
`Infinity + (-Infinity)` is `NaN`; an infinity otherwise dominates. -/
def jsAdd : JsNum → JsNum → JsNum
  | .nan, _ => .nan
  | _, .nan => .nan
  | .posInf, .negInf => .nan
  | .negInf, .posInf => .nan
  | .posInf, _ => .posInf
  | _, .posInf => .posInf
  | .negInf, _ => .negInf
  | _, .negInf => .negInf
  | .num a, .num b => .num (a + b)

/-- JS `/` on numbers: `0/0 = NaN`, a nonzero finite numerator over zero
gives a signed infinity, finite division is exact, `NaN` is absorbing,
and a finite value over an infinity is `0`. -/
def jsDiv : JsNum → JsNum → JsNum
  | .nan, _ => .nan
  | _, .nan => .nan
  | .num a, .num b =>
      if b = 0 then (if a = 0 then .nan else if 0 < a then .posInf else .negInf)
      else .num (a / b)
  | .posInf, .num b => if 0 ≤ b then .posInf else .negInf
  | .negInf, .num b => if 0 ≤ b then .negInf else .posInf
  | .num _, .posInf => .num 0
  | .num _, .negInf => .num 0
  | .posInf, _ => .nan
  | .negInf, _ => .nan

/-- The internal reading type `EnviromentStatus` of
`environment-status.repository.ts`: four finite numeric measurements,
four status strings (`'BOM' | 'MODERADO' | 'RUIM'` in practice, but the
type is `string`), and a timestamp in milliseconds (`takenAt`). -/
structure EnviromentStatus where
  luminosity : ℚ
  sounds : ℚ
  temperature : ℚ
  humidity : ℚ
  luminosityStatus : String
  soundsStatus : String
  temperatureStatus : String
  humidityStatus : String
  timestamp : ℕ
deriving DecidableEq, Repr

/-- The lookup table `statusValues : Record<string, number>` of
`calculate-current-environment-status.usecase.ts`
(`BOM: 3, MODERADO: 2, RUIM: 1`); any other key reads `undefined`. -/
def statusValues : String → Option ℚ
  | "BOM" => some 3
  | "MODERADO" => some 2
  | "RUIM" => some 1
  | _ => none

/-- The lookup table `status : Record<number, string>` of
`calculate-current-environment-status.usecase.ts`
(`3: 'BOM', 2: 'MODERADO', 1: 'RUIM'`).  JS indexes the record with the
string form of the number, so only the exact values `3`, `2`, `1` hit a
key; every other score — fractional averages included — and the special
values `NaN`/`±Infinity` read `undefined`. -/
def status : JsNum → Option String
  | .num q =>
      if q = 3 then some "BOM"
      else if q = 2 then some "MODERADO"
      else if q = 1 then some "RUIM"
      else none
  | _ => none

/-- The mutable accumulator `average` of
`CalculateCurrentEnviromentStatusUseCase.execute`, initialised with all
eight fields `0`. -/
structure Averages where
  luminosity : JsNum
  sounds : JsNum
  temperature : JsNum
  humidity : JsNum
  luminosityStatus : JsNum
  soundsStatus : JsNum
  temperatureStatus : JsNum
  humidityStatus : JsNum
deriving DecidableEq, Repr

/-- Initial value of the `average` accumulator (all fields `0`). -/
def initAverages : Averages :=
  ⟨.num 0, .num 0, .num 0, .num 0, .num 0, .num 0, .num 0, .num 0⟩

/-- JS `acc += statusValues[s]`: a hit adds the numeric value; a miss
adds `undefined`, which turns the accumulator into `NaN`. -/
def jsAddStatusValue (acc : JsNum) (s : String) : JsNum :=
  match statusValues s with
  | some v => jsAdd acc (.num v)
  | none => .nan

/-- One iteration of the `for (const record of data)` loop of
`CalculateCurrentEnviromentStatusUseCase.execute`. -/
def accumulate (a : Averages) (r : EnviromentStatus) : Averages where
  luminosity := jsAdd a.luminosity (.num r.luminosity)
  sounds := jsAdd a.sounds (.num r.sounds)
  temperature := jsAdd a.temperature (.num r.temperature)
  humidity := jsAdd a.humidity (.num r.humidity)
  luminosityStatus := jsAddStatusValue a.luminosityStatus r.luminosityStatus
  soundsStatus := jsAddStatusValue a.soundsStatus r.soundsStatus
  temperatureStatus := jsAddStatusValue a.temperatureStatus r.temperatureStatus
  humidityStatus := jsAddStatusValue a.humidityStatus r.humidityStatus

/-- The object `lastFiveMinutes` built by `execute` and passed to
`setLastFiveMinutesInsights`: numeric fields are JS numbers (possibly
`NaN`), status fields are the result of the `status[...]` lookup
(possibly `undefined`, hence `Option`). -/
structure FiveMinutesSnapshot where
  luminosity : JsNum
  sounds : JsNum
  temperature : JsNum
  humidity : JsNum
  luminosityStatus : Option String
  soundsStatus : Option String
  temperatureStatus : Option String
  humidityStatus : Option String
deriving DecidableEq, Repr

/-- The computation of `CalculateCurrentEnviromentStatusUseCase.execute`
on the window `data` returned by `getStatusBiggerThan`: sum every field
over the loop, then divide each sum by `data.length` and decode the four
averaged status scores through the `status` table.  There is no
empty-window check: with `data = []` every division is `0/0`. -/
def calculateLastFiveMinutes (data : List EnviromentStatus) : FiveMinutesSnapshot :=
  let average := data.foldl accumulate initAverages
  let len : JsNum := .num (data.length : ℚ)
  { luminosity := jsDiv average.luminosity len
    sounds := jsDiv average.sounds len
    temperature := jsDiv average.temperature len
    humidity := jsDiv average.humidity len
    luminosityStatus := status (jsDiv average.luminosityStatus len)
    soundsStatus := status (jsDiv average.soundsStatus len)
    temperatureStatus := status (jsDiv average.temperatureStatus len)
    humidityStatus := status (jsDiv average.humidityStatus len) }

/-- The store effect of `execute`: `setLastFiveMinutesInsights` is
called unconditionally, so the `/media` slot is always replaced with the
freshly computed snapshot, whatever it contains. -/
def executeCalculate (data : List EnviromentStatus)
    (_media : Option FiveMinutesSnapshot) : Option FiveMinutesSnapshot :=
  some (calculateLastFiveMinutes data)

/-- Snapshot with all numeric fields `NaN` and all status fields
`undefined` — what the engine computes from an empty window. -/
def nanSnapshot : FiveMinutesSnapshot :=
  ⟨.nan, .nan, .nan, .nan, none, none, none, none⟩

/-- A well-formed previously stored snapshot, used to exhibit that an
empty-window run overwrites it. -/
def prevSnapshot : FiveMinutesSnapshot :=
  ⟨.num 100, .num 40, .num 22, .num 55,
   some "BOM", some "BOM", some "MODERADO", some "BOM"⟩

/-- A sample stored reading graded `BOM` on every metric. -/
def sampleReadingGood : EnviromentStatus :=
  ⟨120, 35, 21, 50, "BOM", "BOM", "BOM", "BOM", 1700000000000⟩

/-- A sample stored reading graded `MODERADO` on every metric. -/
def sampleReadingModerate : EnviromentStatus :=
  ⟨80, 55, 27, 70, "MODERADO", "MODERADO", "MODERADO", "MODERADO", 1700000005000⟩

/-!
Command dispatcher (`usecase.mediator.ts`).  The registry `eventsMap`
is a JS record from event names to use cases, modelled as a function
`String → Option H`; `registerEvent` is the record assignment
`this.eventsMap[name] = useCase` performed in the `UseCaseMediator`
constructor, and `notify` is `IUseCaseMediator.notify`.
-/

/-- Outcome of `notify`: either the `ConflictException` thrown when the
event name is not in `eventsMap`, or the invoked use case's own outcome
(its value, or its thrown error), passed through unchanged. -/
inductive NotifyResult (ε δ : Type) where
  | unknownEventConflict : NotifyResult ε δ
  | handlerOutcome : Except ε δ → NotifyResult ε δ

/-- The empty `eventsMap` (`protected eventsMap = {}`). -/
def emptyEventsMap {H : Type} : String → Option H := fun _ => none

/-- JS record assignment `this.eventsMap[name] = u`: the binding for
`name` becomes `u`, every other key is untouched.  There is no
present-key check, so an existing binding is replaced. -/
def registerEvent {H : Type} (m : String → Option H) (name : String) (u : H) :
    String → Option H :=
  fun s => if s = name then some u else m s

/-- `IUseCaseMediator.notify(event, input)`: if `eventsMap[event]` is
absent (falsy) it throws `ConflictException`; otherwise it returns
`await eventsMap[event].execute(input)` — the use case's result or
thrown failure, unchanged. -/
def notify {α ε δ : Type} (eventsMap : String → Option (α → Except ε δ))
    (event : String) (input : α) : NotifyResult ε δ :=
  match eventsMap event with
  | none => .unknownEventConflict
  | some u => .handlerOutcome (u input)

/-!
Firebase layer (`infra/firebase.ts`) and repository
(`infra/environment-status.repository.ts`).  The `/ambiente` node is a
list of `(key, value)` children in ascending key order — Firebase
iterates `orderByKey` ascending, and the keys are Unix timestamps in
seconds.  A query that matches nothing yields `snapshot.val() = null`,
i.e. `none`.
-/

/-- The Firebase record `FirebaseEnviromentStatus` (Portuguese field
names) stored under `/ambiente`; `timestamp` is in milliseconds. -/
structure FirebaseEnviromentStatus where
  luminosidade : ℚ
  som : ℚ
  temperatura : ℚ
  umidade : ℚ
  qualidade : String
  luminosidade_status : String
  som_status : String
  temperatura_status : String
  umidade_status : String
  timestamp : ℕ
deriving DecidableEq, Repr

/-- The `/ambiente` node: children keyed by Unix seconds, listed in
Firebase's ascending key order. -/
abbrev AmbienteStore := List (ℕ × FirebaseEnviromentStatus)

/-- Field-name translation performed by the repository's `map` callback
(`luminosidade → luminosity`, …, `new Date(item.timestamp)` kept as the
millisecond value). -/
def toEnviromentStatus (item : FirebaseEnviromentStatus) : EnviromentStatus where
  luminosity := item.luminosidade
  sounds := item.som
  temperature := item.temperatura
  humidity := item.umidade
  luminosityStatus := item.luminosidade_status
  soundsStatus := item.som_status
  temperatureStatus := item.temperatura_status
  humidityStatus := item.umidade_status
  timestamp := item.timestamp

/-- JS `??`: take the left value unless it is `null`/`undefined`. -/
def jsNullishCoalesce {α : Type} : Option α → α → α
  | some v, _ => v
  | none, d => d

/-- JS `Object.values` on a snapshot object whose integer-like keys are
iterated in ascending order (the order the `(key, value)` list is
in). -/
def objectValues {β : Type} (entries : List (ℕ × β)) : List β :=
  entries.map Prod.snd

/-- `FirebaseRealTimeDatabase.getDataBiggerThan(path, limit)`: the
start key is `(limit / 1000).toString().split('.')[0]` — the
millisecond bound truncated to whole seconds — and `orderByKey()
.startAt(initialKey)` keeps exactly the children whose key is at least
that truncated second.  `snapshot.val()` is `null` (`none`) when no
child matches. -/
def getDataBiggerThan (store : AmbienteStore) (limit : ℕ) :
    Option (List (ℕ × FirebaseEnviromentStatus)) :=
  let filtered := store.filter fun e => limit / 1000 ≤ e.1
  if filtered.isEmpty then none else some filtered

/-- `FirebaseRealTimeDatabase.getLast(path)`: `orderByKey()
.limitToLast(1)` keeps the child with the greatest key; `null` when the
node is empty. -/
def fbGetLast (store : AmbienteStore) : Option FirebaseEnviromentStatus :=
  (store.getLast?).map Prod.snd

/-- The body of `EnviromentStatusRepository.list` applied to the raw
`getData` response: `(Object.values(data ?? {}) ?? []).map(...)`. -/
def listOf (data : Option (List (ℕ × FirebaseEnviromentStatus))) :
    List EnviromentStatus :=
  (objectValues (jsNullishCoalesce data [])).map toEnviromentStatus

/-- The body of `EnviromentStatusRepository.getStatusBiggerThan` applied
to the raw `getDataBiggerThan` response — the same null-coalescing
`Object.values` / `map` chain as `list`. -/
def getStatusBiggerThanOf (data : Option (List (ℕ × FirebaseEnviromentStatus))) :
    List EnviromentStatus :=
  (objectValues (jsNullishCoalesce data [])).map toEnviromentStatus

/-- `EnviromentStatusRepository.getStatusBiggerThan(timestamp)` against
a given `/ambiente` store: the Firebase window query followed by the
repository's translation. -/
def getStatusBiggerThan (store : AmbienteStore) (timestamp : ℕ) :
    List EnviromentStatus :=
  getStatusBiggerThanOf (getDataBiggerThan store timestamp)

/-- Runtime errors a repository call can throw.  `typeErrorNullRead`
models the JS `TypeError` raised by reading a property of `null`. -/
inductive JsError where
  | typeErrorNullRead : JsError
deriving DecidableEq, Repr

/-- `EnviromentStatusRepository.getLast()`: the code immediately reads
`item.luminosidade` from the `getLast` result without a null check, so
when the store is empty (`item = null`) it throws a `TypeError`;
otherwise it translates the most recent record. -/
def repoGetLast (store : AmbienteStore) : Except JsError EnviromentStatus :=
  match fbGetLast store with
  | none => .error .typeErrorNullRead
  | some item => .ok (toEnviromentStatus item)

/-- Store well-formedness: Firebase keys are unique and listed in
ascending order, and each child's key is its reading's millisecond
timestamp truncated to whole seconds. -/
def StoreWF (store : AmbienteStore) : Prop :=
  List.Pairwise (fun a b => a.1 < b.1) store ∧
    ∀ e ∈ store, e.1 = e.2.timestamp / 1000

instance (store : AmbienteStore) : Decidable (StoreWF store) := by
  unfold StoreWF
  exact instDecidableAnd

/-!
Scheduler (`CalculateAverageTask`).  `@Interval(10000)` registers
`handleCron` with a plain `setInterval`: every timer tick invokes the
async handler, which immediately starts one engine run
(`mediator.notify('calculateCurrentEnviromentStatusUseCase', {})`) and
performs one snapshot write when that run completes.  The body contains
no in-flight check, no skip branch and no `SkippedTick` log, so the
transition for a tick unconditionally starts a run.
-/

/-- Events of a scheduler execution: a timer tick fires, or one
in-flight engine run completes. -/
inductive TickEvent where
  | tick : TickEvent
  | runComplete : TickEvent
deriving DecidableEq, Repr

/-- Observable scheduler state: runs currently in flight, runs started,
ticks skipped, and snapshot writes performed by completed runs. -/
structure SchedState where
  inFlight : ℕ
  started : ℕ
  skipped : ℕ
  snapshotWrites : ℕ
deriving DecidableEq, Repr

/-- One scheduler step.  A tick always enters `handleCron` and starts a
run (there is no guard, so nothing is ever added to `skipped`); a
completion retires one in-flight run and performs its
`setLastFiveMinutesInsights` write. -/
def schedStep (s : SchedState) : TickEvent → SchedState
  | .tick => { s with inFlight := s.inFlight + 1, started := s.started + 1 }
  | .runComplete =>
      if s.inFlight = 0 then s
      else { s with inFlight := s.inFlight - 1,
                    snapshotWrites := s.snapshotWrites + 1 }

/-- Scheduler execution from the initial state (nothing in flight). -/
def schedRun (events : List TickEvent) : SchedState :=
  events.foldl schedStep ⟨0, 0, 0, 0⟩

/-- Number of tick events in a trace. -/
def countTicks (events : List TickEvent) : ℕ :=
  (events.filter fun e => e = .tick).length

/-- A sample Firebase record one second into the epoch window used in
the window-query counterexample. -/
def fbSampleOld : FirebaseEnviromentStatus :=
  ⟨120, 35, 21, 50, "BOM", "BOM", "BOM", "BOM", "BOM", 1000⟩

/-- A sample Firebase record with a large (realistic) timestamp. -/
def fbSampleA : FirebaseEnviromentStatus :=
  ⟨120, 35, 21, 50, "BOM", "BOM", "BOM", "BOM", "BOM", 1700000000000⟩

/-- A second sample Firebase record, five seconds later. -/
def fbSampleB : FirebaseEnviromentStatus :=
  ⟨80, 55, 27, 70, "MODERADO", "MODERADO", "MODERADO", "MODERADO", "MODERADO",
   1700000005000⟩

/-- A sample `/ambiente` store with two readings in key order. -/
def sampleStore : AmbienteStore :=
  [(1700000000, fbSampleA), (1700000005, fbSampleB)]

/-!
Theorems.
-/

/-- Projecting a numeric field out of the accumulation loop: if the
projection starts at a finite value and each loop iteration adds the
reading's (finite) field to it, the loop leaves the exact sum. -/
theorem foldl_accumulate_num (f : Averages → JsNum) (g : EnviromentStatus → ℚ)
    (hstep : ∀ a r, f (accumulate a r) = jsAdd (f a) (.num (g r)))
    (data : List EnviromentStatus) :
    ∀ (a : Averages) (q : ℚ), f a = .num q →
      f (data.foldl accumulate a) = .num (q + (data.map g).sum) := by
  induction data with
  | nil => intro a q h; simpa using h
  | cons r rest ih =>
      intro a q h
      have hstep1 : f (accumulate a r) = .num (q + g r) := by
        rw [hstep a r, h]; rfl
      have := ih (accumulate a r) (q + g r) hstep1
      simpa [add_assoc] using this

/-- C4: on a non-empty window of `N` readings, each numeric field of the
produced snapshot is exactly the arithmetic mean `(v1 + ... + vN) / N`
of that field over the window (the embedding computes with exact
rationals, so the floating-point tolerance is met exactly). -/
theorem snapshot_numeric_fields_are_means (data : List EnviromentStatus)
    (h : data ≠ []) :
    (calculateLastFiveMinutes data).luminosity =
      .num ((data.map fun r => r.luminosity).sum / (data.length : ℚ)) ∧
    (calculateLastFiveMinutes data).sounds =
      .num ((data.map fun r => r.sounds).sum / (data.length : ℚ)) ∧
    (calculateLastFiveMinutes data).temperature =
      .num ((data.map fun r => r.temperature).sum / (data.length : ℚ)) ∧
    (calculateLastFiveMinutes data).humidity =
      .num ((data.map fun r => r.humidity).sum / (data.length : ℚ)) := by
  have hn : data.length ≠ 0 := by
    simpa [List.length_eq_zero] using h
  have hq : (data.length : ℚ) ≠ 0 := by exact_mod_cast hn
  have hl := foldl_accumulate_num (fun a => a.luminosity)
    (fun r => r.luminosity) (fun a r => rfl) data initAverages 0 rfl
  have hs := foldl_accumulate_num (fun a => a.sounds)
    (fun r => r.sounds) (fun a r => rfl) data initAverages 0 rfl
  have ht := foldl_accumulate_num (fun a => a.temperature)
    (fun r => r.temperature) (fun a r => rfl) data initAverages 0 rfl
  have hh := foldl_accumulate_num (fun a => a.humidity)
    (fun r => r.humidity) (fun a r => rfl) data initAverages 0 rfl
  refine ⟨?_, ?_, ?_, ?_⟩ <;>
    simp [calculateLastFiveMinutes, hl, hs, ht, hh, jsDiv, hq]

/-- Witness for C4 at the concrete two-reading window. -/
theorem snapshot_numeric_fields_are_means_witness :
    ([sampleReadingGood, sampleReadingModerate] ≠ ([] : List EnviromentStatus)) ∧
    ((calculateLastFiveMinutes [sampleReadingGood, sampleReadingModerate]).luminosity =
      .num ((([sampleReadingGood, sampleReadingModerate].map fun r => r.luminosity).sum) /
        (([sampleReadingGood, sampleReadingModerate] : List EnviromentStatus).length : ℚ)) ∧
     (calculateLastFiveMinutes [sampleReadingGood, sampleReadingModerate]).sounds =
      .num ((([sampleReadingGood, sampleReadingModerate].map fun r => r.sounds).sum) /
        (([sampleReadingGood, sampleReadingModerate] : List EnviromentStatus).length : ℚ)) ∧
     (calculateLastFiveMinutes [sampleReadingGood, sampleReadingModerate]).temperature =
      .num ((([sampleReadingGood, sampleReadingModerate].map fun r => r.temperature).sum) /
        (([sampleReadingGood, sampleReadingModerate] : List EnviromentStatus).length : ℚ)) ∧
     (calculateLastFiveMinutes [sampleReadingGood, sampleReadingModerate]).humidity =
      .num ((([sampleReadingGood, sampleReadingModerate].map fun r => r.humidity).sum) /
        (([sampleReadingGood, sampleReadingModerate] : List EnviromentStatus).length : ℚ))) :=
  ⟨by simp, snapshot_numeric_fields_are_means _ (by simp)⟩

/-- C1 (code bug): with an empty 5-minute window the engine does not
fail with an `EmptyWindow` condition — `execute` divides every field sum
by `data.length = 0`, producing a snapshot whose numeric fields are all
`NaN` and whose status fields are all `undefined`, and it still calls
`setLastFiveMinutesInsights`, overwriting the previously stored
snapshot with these artifacts. -/
theorem emptyWindow_writes_artifact_snapshot :
    calculateLastFiveMinutes [] = nanSnapshot ∧
    executeCalculate [] (some prevSnapshot) = some nanSnapshot ∧
    executeCalculate [] (some prevSnapshot) ≠ some prevSnapshot := by
  refine ⟨by decide, by decide, by decide⟩

/-- C2 (code bug): the decode side of the classification codec is the
bare lookup table `status`, defined only at the exact scores `1`, `2`
and `3`; it neither clamps nor rounds, so the averaged score `2.5`
(and any other non-integer, out-of-range, or `NaN` score) decodes to
`undefined` instead of a grade. -/
theorem status_decode_undefined_at_midpoint :
    status (.num (5 / 2)) = none ∧
    status (.num 1) = some "RUIM" ∧
    status (.num 2) = some "MODERADO" ∧
    status (.num 3) = some "BOM" ∧
    status (.num 0) = none ∧
    status (.num 4) = none ∧
    status .nan = none := by
  refine ⟨by norm_num [status], by norm_num [status], by norm_num [status],
    by norm_num [status], by norm_num [status], by norm_num [status], rfl⟩

/-- C3 (code bug): decoding the mean of encoded grades is not total —
for the two-reading window graded `BOM` and `MODERADO` the averaged
ordinal is `(3 + 2) / 2 = 2.5`, and the `status` lookup on it yields
`undefined` for all four grade fields of the snapshot. -/
theorem grade_average_decode_undefined :
    sampleReadingGood.luminosityStatus = "BOM" ∧
    sampleReadingModerate.luminosityStatus = "MODERADO" ∧
    (calculateLastFiveMinutes [sampleReadingGood, sampleReadingModerate]).luminosityStatus = none ∧
    (calculateLastFiveMinutes [sampleReadingGood, sampleReadingModerate]).soundsStatus = none ∧
    (calculateLastFiveMinutes [sampleReadingGood, sampleReadingModerate]).temperatureStatus = none ∧
    (calculateLastFiveMinutes [sampleReadingGood, sampleReadingModerate]).humidityStatus = none := by
  refine ⟨rfl, rfl, ?_, ?_, ?_, ?_⟩ <;>
    norm_num [calculateLastFiveMinutes, accumulate, initAverages, jsAdd,
      jsAddStatusValue, statusValues, jsDiv, status,
      sampleReadingGood, sampleReadingModerate]

/-- C5: dispatching an event name absent from `eventsMap` fails with
the `ConflictException` (`UnknownCommand`), whatever the input is; and
dispatching a registered name invokes exactly the use case stored under
that name, returning its result — or propagating its failure —
unchanged. -/
theorem notify_unknown_or_passthrough {α ε δ : Type}
    (m : String → Option (α → Except ε δ)) (e : String) (x y : α) :
    (m e = none →
      notify m e x = .unknownEventConflict ∧
      notify m e y = .unknownEventConflict) ∧
    (∀ u, m e = some u → notify m e x = .handlerOutcome (u x)) := by
  constructor
  · intro h
    constructor <;> simp [notify, h]
  · intro u h
    simp [notify, h]

/-- A sample use case handler for dispatcher witnesses. -/
def sampleHandler : ℕ → Except String ℕ := fun n => .ok (n + 1)

/-- A second, different sample handler for the overwrite witness. -/
def sampleHandler2 : ℕ → Except String ℕ := fun _ => .error "boom"

/-- An `eventsMap` holding `sampleHandler` under one registered name. -/
def sampleEventsMap : String → Option (ℕ → Except String ℕ) :=
  registerEvent emptyEventsMap "listEnviromentStatus" sampleHandler

/-- Witness for C5: on the concrete one-entry map, an unregistered name
conflicts and the registered name runs its handler. -/
theorem notify_unknown_or_passthrough_witness :
    notify sampleEventsMap "noSuchEvent" 5 = .unknownEventConflict ∧
    notify sampleEventsMap "listEnviromentStatus" 5 =
      .handlerOutcome (sampleHandler 5) :=
  ⟨((notify_unknown_or_passthrough sampleEventsMap "noSuchEvent" 5 5).1
      (by simp [sampleEventsMap, registerEvent, emptyEventsMap])).1,
   (notify_unknown_or_passthrough sampleEventsMap "listEnviromentStatus" 5 5).2
      sampleHandler (by simp [sampleEventsMap, registerEvent])⟩

/-- Counterexample to C6: `eventsMap` registration is a plain record
assignment, so registering the same name a second time does not fail —
it succeeds and silently replaces the first handler (here the binding
for `"evt"` moves from `0` to `1`). -/
theorem register_duplicate_no_failfast_cex :
    (registerEvent (emptyEventsMap : String → Option ℕ) "evt" 0) "evt" = some 0 ∧
    (registerEvent (registerEvent (emptyEventsMap : String → Option ℕ) "evt" 0)
        "evt" 1) "evt" = some 1 := by
  constructor <;> simp [registerEvent, emptyEventsMap]

/-- C6 (amended): registering a name that is already present in
`eventsMap` does not fail at setup — the record assignment silently
overwrites, the last registration wins, other names are untouched, and
dispatch then invokes the most recently registered handler. -/
theorem register_overwrites_last_wins {α ε δ : Type}
    (m : String → Option (α → Except ε δ)) (name : String)
    (u : α → Except ε δ) :
    (registerEvent m name u) name = some u ∧
    (∀ s, s ≠ name → (registerEvent m name u) s = m s) ∧
    (∀ x, notify (registerEvent m name u) name x = .handlerOutcome (u x)) := by
  refine ⟨by simp [registerEvent], ?_, ?_⟩
  · intro s hs
    simp [registerEvent, hs]
  · intro x
    simp [notify, registerEvent]

/-- Witness for C6's amended statement: re-registering
`"listEnviromentStatus"` over `sampleEventsMap` replaces
`sampleHandler` with `sampleHandler2` without any setup failure. -/
theorem register_overwrites_last_wins_witness :
    (registerEvent sampleEventsMap "listEnviromentStatus" sampleHandler2)
        "listEnviromentStatus" = some sampleHandler2 ∧
    ("otherEvent" ≠ "listEnviromentStatus" ∧
      (registerEvent sampleEventsMap "listEnviromentStatus" sampleHandler2)
        "otherEvent" = sampleEventsMap "otherEvent") ∧
    notify (registerEvent sampleEventsMap "listEnviromentStatus" sampleHandler2)
        "listEnviromentStatus" 5 = .handlerOutcome (sampleHandler2 5) :=
  ⟨(register_overwrites_last_wins sampleEventsMap "listEnviromentStatus"
      sampleHandler2).1,
   ⟨by decide,
    (register_overwrites_last_wins sampleEventsMap "listEnviromentStatus"
      sampleHandler2).2.1 "otherEvent" (by decide)⟩,
   (register_overwrites_last_wins sampleEventsMap "listEnviromentStatus"
      sampleHandler2).2.2 5⟩

/-- The window query is the key filter followed by the field
translation, whether or not any child matches (the `null` response for
an empty match set is coalesced back to an empty collection). -/
theorem getStatusBiggerThan_eq_filter_map (store : AmbienteStore) (limit : ℕ) :
    getStatusBiggerThan store limit =
      (store.filter fun e => limit / 1000 ≤ e.1).map fun e =>
        toEnviromentStatus e.2 := by
  unfold getStatusBiggerThan getStatusBiggerThanOf getDataBiggerThan
  cases hf : store.filter fun e => limit / 1000 ≤ e.1 with
  | nil => simp [hf, jsNullishCoalesce, objectValues]
  | cons a l =>
      simp [hf, jsNullishCoalesce, objectValues, List.map_map, Function.comp]

/-- Counterexample to C7: the query truncates the millisecond bound to
whole seconds, so with the bound `1500` the reading stored under key
`1` (taken at `1000` ms) is still returned even though its `takenAt`
is strictly below the bound. -/
theorem getWindow_seconds_truncation_cex :
    StoreWF [(1, fbSampleOld)] ∧
    getStatusBiggerThan [(1, fbSampleOld)] 1500 =
      [toEnviromentStatus fbSampleOld] ∧
    (toEnviromentStatus fbSampleOld).timestamp < 1500 := by
  refine ⟨by decide, by decide, by decide⟩

/-- C7 (amended): on a well-formed store, `getStatusBiggerThan` returns
readings in strictly increasing `takenAt` order; every reading with
`takenAt ≥ sinceTimestamp` is included, and every returned reading has
`takenAt ≥ 1000 * ⌊sinceTimestamp / 1000⌋` — the bound is truncated to
whole seconds, so readings up to `999` ms older than `sinceTimestamp`
may also be returned (they share its second). -/
theorem getWindow_order_and_bounds (store : AmbienteStore) (limit : ℕ)
    (hwf : StoreWF store) :
    List.Pairwise (fun a b => a.timestamp < b.timestamp)
      (getStatusBiggerThan store limit) ∧
    (∀ r ∈ getStatusBiggerThan store limit,
      1000 * (limit / 1000) ≤ r.timestamp) ∧
    (∀ e ∈ store, limit ≤ e.2.timestamp →
      toEnviromentStatus e.2 ∈ getStatusBiggerThan store limit) ∧
    (∀ r ∈ getStatusBiggerThan store limit,
      ∃ e ∈ store, limit / 1000 ≤ e.1 ∧ r = toEnviromentStatus e.2) := by
  obtain ⟨hsort, hkey⟩ := hwf
  simp only [getStatusBiggerThan_eq_filter_map]
  refine ⟨?_, ?_, ?_, ?_⟩
  · have hfsort : List.Pairwise (fun a b => a.1 < b.1)
        (store.filter fun e => limit / 1000 ≤ e.1) :=
      hsort.sublist (List.filter_sublist store)
    rw [List.pairwise_map]
    refine hfsort.imp_of_mem ?_
    intro a b ha hb hab
    have hka := hkey a (List.mem_of_mem_filter ha)
    have hkb := hkey b (List.mem_of_mem_filter hb)
    simp only [toEnviromentStatus]
    omega
  · intro r hr
    obtain ⟨e, he, rfl⟩ := List.mem_map.mp hr
    rw [List.mem_filter] at he
    have hk := hkey e he.1
    have hle : limit / 1000 ≤ e.1 := by simpa using he.2
    simp only [toEnviromentStatus]
    omega
  · intro e he hts
    have hk := hkey e he
    refine List.mem_map.mpr ⟨e, List.mem_filter.mpr ⟨he, ?_⟩, rfl⟩
    simp only [decide_eq_true_eq, hk]
    omega
  · intro r hr
    obtain ⟨e, he, rfl⟩ := List.mem_map.mp hr
    rw [List.mem_filter] at he
    exact ⟨e, he.1, by simpa using he.2, rfl⟩

/-- Witness for C7's amended statement on the concrete two-reading
store with a bound falling strictly between the two readings. -/
theorem getWindow_order_and_bounds_witness :
    StoreWF sampleStore ∧
    (List.Pairwise (fun a b => a.timestamp < b.timestamp)
      (getStatusBiggerThan sampleStore 1700000002500) ∧
    (∀ r ∈ getStatusBiggerThan sampleStore 1700000002500,
      1000 * (1700000002500 / 1000) ≤ r.timestamp) ∧
    (∀ e ∈ sampleStore, 1700000002500 ≤ e.2.timestamp →
      toEnviromentStatus e.2 ∈ getStatusBiggerThan sampleStore 1700000002500) ∧
    (∀ r ∈ getStatusBiggerThan sampleStore 1700000002500,
      ∃ e ∈ sampleStore, 1700000002500 / 1000 ≤ e.1 ∧
        r = toEnviromentStatus e.2)) :=
  ⟨by decide, getWindow_order_and_bounds sampleStore 1700000002500 (by decide)⟩

/-- Counterexample to C8: two timer ticks with no completion in between
leave two engine runs in flight and nothing skipped; once the two
overlapping runs complete, two snapshot writes — not one — have
occurred. -/
theorem scheduler_overlap_cex :
    (schedRun [.tick, .tick]).inFlight = 2 ∧
    (schedRun [.tick, .tick]).skipped = 0 ∧
    (schedRun [.tick, .tick, .runComplete, .runComplete]).snapshotWrites = 2 := by
  decide

/-- Accumulator form of the scheduler counting argument: over any event
trace, started runs grow by exactly the number of ticks and the skipped
count never changes. -/
theorem schedRun_counts_aux (events : List TickEvent) :
    ∀ s : SchedState,
      (events.foldl schedStep s).started = s.started + countTicks events ∧
      (events.foldl schedStep s).skipped = s.skipped := by
  induction events with
  | nil =>
      intro s
      simp [countTicks]
  | cons e rest ih =>
      intro s
      have hstart : (schedStep s e).started =
          s.started + (if e = .tick then 1 else 0) := by
        cases e with
        | tick => simp [schedStep]
        | runComplete =>
            simp only [schedStep]
            split <;> simp
      have hskip : (schedStep s e).skipped = s.skipped := by
        cases e with
        | tick => rfl
        | runComplete =>
            simp only [schedStep]
            split <;> simp
      have hticks : countTicks (e :: rest) =
          (if e = .tick then 1 else 0) + countTicks rest := by
        cases e with
        | tick =>
            simp [countTicks, List.filter_cons]
            omega
        | runComplete => simp [countTicks, List.filter_cons]
      have h := ih (schedStep s e)
      rw [List.foldl_cons]
      refine ⟨?_, ?_⟩
      · rw [h.1, hstart, hticks]
        omega
      · rw [h.2, hskip]

/-- C8 (amended): the `handleCron` body has no in-flight guard, so no
tick is ever skipped — over every execution trace the scheduler starts
exactly one engine run per tick (even when a previous run is still in
flight) and its skipped-tick count stays `0`; overlapping runs each
perform their own snapshot write. -/
theorem scheduler_never_skips (events : List TickEvent) :
    (schedRun events).started = countTicks events ∧
    (schedRun events).skipped = 0 := by
  have h := schedRun_counts_aux events ⟨0, 0, 0, 0⟩
  simpa [schedRun] using h

/-- C9 (code bug): on an empty store `EnviromentStatusRepository
.getLast` reads `item.luminosidade` from the `null` returned by the
database and throws a `TypeError` — a crash, not a typed `NotFound`
absence; on a non-empty store it does return the most recent reading. -/
theorem getLast_empty_crashes_typeError :
    repoGetLast [] = .error .typeErrorNullRead ∧
    repoGetLast sampleStore = .ok (toEnviromentStatus fbSampleB) := by
  refine ⟨rfl, by simp [repoGetLast, fbGetLast, sampleStore, List.getLast?]⟩

/-- C10: both the full-history query and the window query coalesce a
`null` store response to an empty collection before `Object.values`,
so each returns a (possibly empty) array of translated readings for
every store response — never `null`, `undefined`, or a thrown error. -/
theorem list_window_null_safe :
    listOf none = [] ∧
    getStatusBiggerThanOf none = [] ∧
    (∀ es, listOf (some es) = es.map fun e => toEnviromentStatus e.2) ∧
    (∀ es, getStatusBiggerThanOf (some es) =
      es.map fun e => toEnviromentStatus e.2) := by
  refine ⟨rfl, rfl, ?_, ?_⟩ <;> intro es <;>
    simp [listOf, getStatusBiggerThanOf, objectValues, jsNullishCoalesce,
      List.map_map, Function.comp]

end EnvMonitor
